import Mathlib

set_option maxRecDepth 8000

/-!
Shallow embedding of the smart-grammar-bot pipeline (src/main.go).

The bot consumes Telegram messages, routes commands to static handlers and
free text to a Gemini-backed grammar checker, and sends replies back to the
originating chat.  External collaborators (the Telegram send API and the
Gemini `GenerateContent` call) are modelled as oracles; each handler is a
pure function from an inbound message (plus the oracle) to the list of
outbound sends it performs, in order.
-/

/-- An inbound chat message as the bot consumes it: chat identifier,
message identifier and sender text (mirrors the fields of
`tgbotapi.Message` that `main.go` reads). -/
structure Message where
  chatID : Int
  messageID : Int
  text : String
deriving DecidableEq

/-- One outbound send performed by the bot: either a chat action (the
"typing" indicator, `tgbotapi.NewChatAction`) or a message
(`tgbotapi.NewMessage` with its optional `ReplyToMessageID` and
`ParseMode`). -/
inductive Outbound where
  | chatAction (chatID : Int) (action : String)
  | message (chatID : Int) (body : String) (replyToMessageID : Option Int)
      (parseMode : Option String)
deriving DecidableEq

/-- The target chat identifier of an outbound send. -/
def Outbound.chatID : Outbound → Int
  | .chatAction c _ => c
  | .message c _ _ _ => c

/-- Whether an outbound send is a message reply (as opposed to a chat
action such as "typing"). -/
def Outbound.isReply : Outbound → Bool
  | .chatAction _ _ => false
  | .message _ _ _ _ => true

/-- The body text of an outbound message (empty for a chat action). -/
def Outbound.body : Outbound → String
  | .chatAction _ _ => ""
  | .message _ b _ _ => b

/-- The reply-to message identifier of an outbound send, when set. -/
def Outbound.replyTo : Outbound → Option Int
  | .chatAction _ _ => none
  | .message _ _ r _ => r

/-- The parse mode of an outbound message (`none` when the Go code leaves
`ParseMode` at its empty default). -/
def Outbound.parseMode : Outbound → Option String
  | .chatAction _ _ => none
  | .message _ _ _ p => p

/-- The message replies among a list of outbound sends (chat actions
filtered out). -/
def replies (l : List Outbound) : List Outbound :=
  l.filter Outbound.isReply

/-- Result of one Gemini `GenerateContent` call: the response text paired
with an optional error (Go's `(string, error)` pair). -/
abbrev GenResult := String × Option String

/-- Oracle for the external Gemini service: model identifier and prompt in,
`GenResult` out. -/
abbrev GenOracle := String → String → GenResult

/-- Go's `strings.HasPrefix`, on the character sequences of the two
strings. -/
def hasPrefix (s pre : String) : Bool := pre.data.isPrefixOf s.data

/-- The fixed model identifier passed to `GenerateContent` in
`checkGrammar`. -/
def geminiModel : String := "gemini-2.5-flash-preview-05-20"

/-- The instructional prompt template of `checkGrammar` (the raw string
literal of `main.go` up to the `%s` verb, at which the user text is
interpolated). -/
def grammarPromptTemplate : String :=
  "System:\nYou are a world-class English language assistant specializing in grammar and vocabulary correction for Telegram messages using MarkdownV2. When given a user’s sentence, you must:\n\n1. Identify all grammar, spelling, punctuation or word-choice mistakes.  \n2. Escape every special MarkdownV2 character (_ * [ ] ( ) ~  > # + - = | \x7b \x7d . !) by prefixing it with a backslash.  \n3. Wrap each original mistake in ~strikethrough~ and each correction in **bold**, using valid MarkdownV2 syntax.  \n4. Preserve the original meaning, tone and style.  \n5. Return exactly the single corrected sentence with those inline edits—no explanations, comments or extra text.\n\nUser:\n"

/-- The full prompt submitted for a user text: the template with the text
interpolated verbatim at the single `%s` position (`fmt.Sprintf`). -/
def grammarPrompt (text : String) : String :=
  grammarPromptTemplate ++ text

/-- One call to the external Gemini service; records the (model, prompt)
pair actually submitted alongside the oracle's answer. -/
def generateContent (gen : GenOracle) (model prompt : String) :
    GenResult × List (String × String) :=
  (gen model prompt, [(model, prompt)])

/-- Embedding of `checkGrammar`: submits the fixed-template prompt to the
fixed model; on error returns the empty string with a wrapped error, else
the response text with no error.  The second component is the list of
(model, prompt) calls made. -/
def checkGrammar (gen : GenOracle) (text : String) :
    GenResult × List (String × String) :=
  let (res, calls) := generateContent gen geminiModel (grammarPrompt text)
  match res with
  | (_, some e) => (("", some ("failed to generate content: " ++ e)), calls)
  | (r, none) => ((r, none), calls)

/-- The chat action name sent while processing (`tgbotapi.ChatTyping`). -/
def chatTyping : String := "typing"

/-- The fixed apology body sent when `checkGrammar` fails. -/
def apologyText : String :=
  "Sorry, I encountered an error while checking your grammar. Please try again later."

/-- The fixed label prefixed to the corrected text
(`fmt.Sprintf` format up to the `%s` verb). -/
def grammarLabel : String := "📝 Grammar check for your message:\n\n"

/-- Embedding of `handleMessage`: skips empty or command text, else sends
the typing action and then either the apology reply (on `checkGrammar`
error) or the labelled corrected text with `ParseMode = "MarkdownV2"`,
both reply-threaded to the original message. -/
def handleMessage (gen : GenOracle) (m : Message) : List Outbound :=
  if m.text = "" || hasPrefix m.text "/" then []
  else
    let typing := Outbound.chatAction m.chatID chatTyping
    match (checkGrammar gen m.text).1 with
    | (_, some _) =>
        [typing, Outbound.message m.chatID apologyText (some m.messageID) none]
    | (correctedText, none) =>
        [typing, Outbound.message m.chatID (grammarLabel ++ correctedText)
          (some m.messageID) (some "MarkdownV2")]

/-- Modelled from the spec: the platform library's `Message.IsCommand`
(the `tgbotapi` library code is not in this repository); the spec
identifies a command by its leading command marker `/`. -/
def isCommand (m : Message) : Bool := hasPrefix m.text "/"

/-- Modelled from the spec: the platform library's `Message.Command`
(the `tgbotapi` library code is not in this repository); the spec gives
the InboundEvent a command name, taken after the marker up to a space,
with any `@botname` suffix cut off. -/
def command (m : Message) : String :=
  if isCommand m then
    String.mk ((m.text.data.drop 1).takeWhile (fun c => !(c == ' ' || c == '@')))
  else ""

/-- The fixed welcome template of the `/start` handler. -/
def welcomeText : String :=
  "👋 Welcome to Grammar Check Bot!\n\nSend me any text message and I'll check it for grammar, spelling, and punctuation errors.\n\nI'll show corrections with:\n- ~strikethrough~ for original mistakes\n- **bold** for corrections\n\nCommands:\n/start - Show this welcome message\n/help - Show help information"

/-- The fixed help template of the `/help` handler. -/
def helpText : String :=
  "🔍 How to use Grammar Check Bot:\n\n1. Simply send me any text message\n2. I'll analyze it for grammar, spelling, and punctuation errors\n3. You'll receive a corrected version with highlighted changes\n\n📝 Example:\nYour text: \"I goes to store yesterday\"\nMy response: \"I ~goes~ **went** to ~store~ **the store** yesterday\"\n\n💡 This helps you verify that your message conveys what you intended before sending it elsewhere!"

/-- The fixed unknown-command notice of the default command branch. -/
def unknownCommandText : String :=
  "Unknown command. Use /help to see available commands."

/-- Embedding of `handleCommand`: switches on the command name; `/start`
and `/help` send their static template with `ParseMode = "MarkdownV2"`,
the default branch sends the unknown-command notice with no parse mode;
none of the branches sets a reply-to identifier. -/
def handleCommand (m : Message) : List Outbound :=
  match command m with
  | "start" => [Outbound.message m.chatID welcomeText none (some "MarkdownV2")]
  | "help" => [Outbound.message m.chatID helpText none (some "MarkdownV2")]
  | _ => [Outbound.message m.chatID unknownCommandText none none]

/-- Body of the `Start` update loop for one message: commands go to
`handleCommand`, everything else to `handleMessage`. -/
def handleUpdate (gen : GenOracle) (m : Message) : List Outbound :=
  if isCommand m then handleCommand m else handleMessage gen m

/-- One iteration of the `Start` update loop: updates without a message
are skipped (`update.Message == nil`). -/
def processUpdate (gen : GenOracle) (update : Option Message) : List Outbound :=
  match update with
  | none => []
  | some m => handleUpdate gen m

/-- The `Start` update loop over a finite prefix of the update stream:
each update is processed to completion before the next. -/
def processUpdates (gen : GenOracle) : List (Option Message) → List Outbound
  | [] => []
  | u :: rest => processUpdate gen u ++ processUpdates gen rest

/-- Outcome of `main`: a fatal exit at startup (missing secret or bot
construction failure) or a started run with its outbound sends. -/
inductive StartupOutcome where
  | fatalMissingTelegramToken
  | fatalMissingGeminiKey
  | fatalConstruction (e : String)
  | started (out : List Outbound)
deriving DecidableEq

/-- Embedding of `main`: reads the two environment secrets, exits fatally
if either is empty, then constructs the bot (`construction` is the
`NewGrammarBot` error oracle) and runs the update loop. -/
def mainRun (gen : GenOracle) (telegramToken geminiAPIKey : String)
    (construction : Option String) (updates : List (Option Message)) :
    StartupOutcome :=
  if telegramToken = "" then .fatalMissingTelegramToken
  else if geminiAPIKey = "" then .fatalMissingGeminiKey
  else match construction with
    | some e => .fatalConstruction e
    | none => .started (processUpdates gen updates)

/-- C1: for a non-empty, non-command text whose correction call succeeds
with response R, exactly one reply is produced, its body the fixed label
followed by R verbatim, reply-threaded to the original message id, with
MarkdownV2 rendering. -/
theorem grammar_success_reply (gen : GenOracle) (m : Message) (R : String)
    (h1 : m.text ≠ "") (h2 : hasPrefix m.text "/" = false)
    (h3 : gen geminiModel (grammarPrompt m.text) = (R, none)) :
    replies (handleMessage gen m) =
      [Outbound.message m.chatID (grammarLabel ++ R) (some m.messageID)
        (some "MarkdownV2")] := by
  simp [handleMessage, h1, h2, checkGrammar, generateContent, h3, replies,
    Outbound.isReply]

/-- Witness for C1: the spec's scenario, with the stubbed correction
service answering the annotated sentence. -/
theorem grammar_success_reply_witness :
    (fun _ _ => ("I ~~goes~~ **went** to ~~store~~ **the store** yesterday",
        (none : Option String)) : GenOracle) geminiModel
        (grammarPrompt "I goes to store yesterday") =
      ("I ~~goes~~ **went** to ~~store~~ **the store** yesterday", none) ∧
    replies (handleMessage
        (fun _ _ => ("I ~~goes~~ **went** to ~~store~~ **the store** yesterday", none))
        ⟨1, 42, "I goes to store yesterday"⟩) =
      [Outbound.message 1
        "📝 Grammar check for your message:\n\nI ~~goes~~ **went** to ~~store~~ **the store** yesterday"
        (some 42) (some "MarkdownV2")] :=
  ⟨rfl, grammar_success_reply _ ⟨1, 42, "I goes to store yesterday"⟩ _
    (by decide) (by decide) rfl⟩

/-- C2: for a non-empty, non-command text whose correction call fails,
exactly one reply is produced, with the fixed apology body, reply-threaded
to the original message id; the loop then continues with the remaining
updates. -/
theorem grammar_failure_reply (gen : GenOracle) (m : Message) (r e : String)
    (h1 : m.text ≠ "") (h2 : hasPrefix m.text "/" = false)
    (h3 : gen geminiModel (grammarPrompt m.text) = (r, some e)) :
    replies (handleMessage gen m) =
      [Outbound.message m.chatID apologyText (some m.messageID) none] ∧
    ∀ rest, processUpdates gen (some m :: rest) =
      handleMessage gen m ++ processUpdates gen rest := by
  constructor
  · simp [handleMessage, h1, h2, checkGrammar, generateContent, h3, replies,
      Outbound.isReply]
  · intro rest
    simp [processUpdates, processUpdate, handleUpdate, isCommand, h2]

/-- Witness for C2: a failing correction service yields the apology reply
and the loop goes on. -/
theorem grammar_failure_reply_witness :
    (fun _ _ => ("", some "boom") : GenOracle) geminiModel
      (grammarPrompt "hello world") = ("", some "boom") ∧
    replies (handleMessage (fun _ _ => ("", some "boom")) ⟨3, 9, "hello world"⟩) =
      [Outbound.message 3 apologyText (some 9) none] :=
  ⟨rfl, (grammar_failure_reply _ ⟨3, 9, "hello world"⟩ "" "boom"
    (by decide) (by decide) rfl).1⟩

/-- C3: a message whose text begins with the command marker is routed to
`handleCommand`, whose output does not depend on the correction oracle and
is exactly one reply drawn from the three static templates. -/
theorem command_routing (gen gen' : GenOracle) (m : Message)
    (h : hasPrefix m.text "/" = true) :
    handleUpdate gen m = handleCommand m ∧
    handleUpdate gen' m = handleUpdate gen m ∧
    (handleCommand m =
        [Outbound.message m.chatID welcomeText none (some "MarkdownV2")] ∨
     handleCommand m =
        [Outbound.message m.chatID helpText none (some "MarkdownV2")] ∨
     handleCommand m =
        [Outbound.message m.chatID unknownCommandText none none]) := by
  refine ⟨by simp [handleUpdate, isCommand, h], by simp [handleUpdate, isCommand, h], ?_⟩
  unfold handleCommand
  split
  · exact Or.inl rfl
  · exact Or.inr (Or.inl rfl)
  · exact Or.inr (Or.inr rfl)

/-- Witness for C3: the `/help` command is routed to the help template,
independently of the oracle. -/
theorem command_routing_witness :
    hasPrefix "/help" "/" = true ∧
    handleUpdate (fun _ _ => ("", none)) ⟨2, 4, "/help"⟩ = handleCommand ⟨2, 4, "/help"⟩ ∧
    (handleCommand ⟨2, 4, "/help"⟩ =
        [Outbound.message 2 welcomeText none (some "MarkdownV2")] ∨
     handleCommand ⟨2, 4, "/help"⟩ =
        [Outbound.message 2 helpText none (some "MarkdownV2")] ∨
     handleCommand ⟨2, 4, "/help"⟩ =
        [Outbound.message 2 unknownCommandText none none]) :=
  ⟨by decide,
   (command_routing (fun _ _ => ("", none)) (fun _ _ => ("", none)) ⟨2, 4, "/help"⟩ (by decide)).1,
   (command_routing (fun _ _ => ("", none)) (fun _ _ => ("", none)) ⟨2, 4, "/help"⟩ (by decide)).2.2⟩

/-- C4 counterexample: for the unrecognized command "/foo" the single
command reply is sent with no parse mode, so it is not rendered with
MarkdownV2 — the claim that every command reply has rich markup fails. -/
theorem command_markup_cex :
    handleCommand ⟨5, 7, "/foo"⟩ =
      [Outbound.message 5 unknownCommandText none none] ∧
    (Outbound.message 5 unknownCommandText none none).parseMode ≠
      some "MarkdownV2" := by
  constructor
  · decide
  · decide

/-- C4 amended: the `/start` and `/help` replies are sent with MarkdownV2
rendering and no reply-to identifier, while the unknown-command reply also
carries no reply-to identifier but is sent without a parse mode. -/
theorem command_markup_amended (m : Message) :
    (command m = "start" →
      handleCommand m =
        [Outbound.message m.chatID welcomeText none (some "MarkdownV2")]) ∧
    (command m = "help" →
      handleCommand m =
        [Outbound.message m.chatID helpText none (some "MarkdownV2")]) ∧
    (command m ≠ "start" → command m ≠ "help" →
      handleCommand m = [Outbound.message m.chatID unknownCommandText none none]) := by
  refine ⟨?_, ?_, ?_⟩ <;> intros <;> unfold handleCommand <;> split <;> simp_all

/-- Witness for C4 amended: the three command shapes at concrete inputs. -/
theorem command_markup_amended_witness :
    handleCommand ⟨1, 2, "/start"⟩ =
      [Outbound.message 1 welcomeText none (some "MarkdownV2")] ∧
    handleCommand ⟨1, 2, "/help"⟩ =
      [Outbound.message 1 helpText none (some "MarkdownV2")] ∧
    handleCommand ⟨1, 2, "/foo"⟩ =
      [Outbound.message 1 unknownCommandText none none] :=
  ⟨(command_markup_amended ⟨1, 2, "/start"⟩).1 (by decide),
   (command_markup_amended ⟨1, 2, "/help"⟩).2.1 (by decide),
   (command_markup_amended ⟨1, 2, "/foo"⟩).2.2 (by decide) (by decide)⟩

/-- C5: an event carrying a command other than start and help gets exactly
one reply, whose body is the literal unknown-command notice. -/
theorem unknown_command_reply (m : Message) (_h0 : isCommand m = true)
    (h1 : command m ≠ "start") (h2 : command m ≠ "help") :
    handleCommand m =
      [Outbound.message m.chatID
        "Unknown command. Use /help to see available commands." none none] := by
  unfold handleCommand
  split <;> simp_all [unknownCommandText]

/-- Witness for C5: the command "/frobnicate" draws the unknown-command
notice. -/
theorem unknown_command_reply_witness :
    isCommand ⟨8, 11, "/frobnicate"⟩ = true ∧
    command ⟨8, 11, "/frobnicate"⟩ ≠ "start" ∧
    command ⟨8, 11, "/frobnicate"⟩ ≠ "help" ∧
    handleCommand ⟨8, 11, "/frobnicate"⟩ =
      [Outbound.message 8
        "Unknown command. Use /help to see available commands." none none] :=
  ⟨by decide, by decide, by decide,
   unknown_command_reply ⟨8, 11, "/frobnicate"⟩ (by decide) (by decide) (by decide)⟩

/-- C6: every outbound send produced while handling a message — command
replies, correction result, apology and the typing action alike — targets
the chat of the originating message. -/
theorem outbound_chat_id (gen : GenOracle) (m : Message) (o : Outbound)
    (h : o ∈ handleUpdate gen m) : o.chatID = m.chatID := by
  unfold handleUpdate at h
  split at h
  · unfold handleCommand at h
    split at h <;> simp_all [Outbound.chatID]
  · unfold handleMessage at h
    split at h
    · simp at h
    · split at h <;> simp_all [Outbound.chatID] <;>
        (rcases h with rfl | rfl <;> rfl)

/-- Witness for C6: the welcome reply to "/start" in chat 5 targets
chat 5. -/
theorem outbound_chat_id_witness :
    Outbound.message 5 welcomeText none (some "MarkdownV2") ∈
      handleUpdate (fun _ _ => ("", none)) ⟨5, 7, "/start"⟩ ∧
    (Outbound.message 5 welcomeText none (some "MarkdownV2")).chatID = 5 :=
  ⟨by decide,
   outbound_chat_id (fun _ _ => ("", none)) ⟨5, 7, "/start"⟩ _ (by decide)⟩

/-- C7: for every user text, `checkGrammar` makes exactly one call to the
model service, to the fixed model identifier, with the fixed instructional
template and the text interpolated verbatim at its single trailing
position; the template decomposes into the five numbered instructions. -/
theorem prompt_construction (gen : GenOracle) (t : String) :
    (checkGrammar gen t).2 = [(geminiModel, grammarPromptTemplate ++ t)] ∧
    grammarPromptTemplate =
      "System:\nYou are a world-class English language assistant specializing in grammar and vocabulary correction for Telegram messages using MarkdownV2. When given a user’s sentence, you must:\n\n"
      ++ "1. Identify all grammar, spelling, punctuation or word-choice mistakes.  \n"
      ++ "2. Escape every special MarkdownV2 character (_ * [ ] ( ) ~  > # + - = | \x7b \x7d . !) by prefixing it with a backslash.  \n"
      ++ "3. Wrap each original mistake in ~strikethrough~ and each correction in **bold**, using valid MarkdownV2 syntax.  \n"
      ++ "4. Preserve the original meaning, tone and style.  \n"
      ++ "5. Return exactly the single corrected sentence with those inline edits—no explanations, comments or extra text.\n"
      ++ "\nUser:\n" := by
  constructor
  · rcases hg : gen geminiModel (grammarPrompt t) with ⟨r, e⟩
    simp only [grammarPrompt] at hg
    cases e <;> simp [checkGrammar, generateContent, grammarPrompt, hg]
  · decide

/-- C8: `main` exits fatally, serving no update, when either environment
secret is empty — the outcome does not even depend on the update stream —
and proceeds to construct the bot and run the loop when both are
present. -/
theorem startup_requires_secrets (gen : GenOracle)
    (telegramToken geminiAPIKey : String) (construction : Option String)
    (updates : List (Option Message)) :
    (telegramToken = "" →
      mainRun gen telegramToken geminiAPIKey construction updates =
        StartupOutcome.fatalMissingTelegramToken) ∧
    (telegramToken ≠ "" → geminiAPIKey = "" →
      mainRun gen telegramToken geminiAPIKey construction updates =
        StartupOutcome.fatalMissingGeminiKey) ∧
    (telegramToken ≠ "" → geminiAPIKey ≠ "" → construction = none →
      mainRun gen telegramToken geminiAPIKey construction updates =
        StartupOutcome.started (processUpdates gen updates)) := by
  refine ⟨?_, ?_, ?_⟩ <;> intros <;> simp_all [mainRun]

/-- Witness for C8: a missing token is fatal, a missing key is fatal, and
both secrets present start the (empty) run. -/
theorem startup_requires_secrets_witness :
    mainRun (fun _ _ => ("", none)) "" "k" none [] =
      StartupOutcome.fatalMissingTelegramToken ∧
    mainRun (fun _ _ => ("", none)) "t" "" none [] =
      StartupOutcome.fatalMissingGeminiKey ∧
    mainRun (fun _ _ => ("", none)) "t" "k" none [] =
      StartupOutcome.started (processUpdates (fun _ _ => ("", none)) []) :=
  ⟨(startup_requires_secrets _ "" "k" none []).1 rfl,
   (startup_requires_secrets _ "t" "" none []).2.1 (by decide) rfl,
   (startup_requires_secrets _ "t" "k" none []).2.2 (by decide) (by decide) rfl⟩

/-- C9: a message whose text is empty is discarded: handling it produces
no outbound send at all. -/
theorem empty_text_no_reply (gen : GenOracle) (m : Message)
    (h : m.text = "") : handleUpdate gen m = [] := by
  have hc : hasPrefix "" "/" = false := by decide
  simp [handleUpdate, isCommand, hc, handleMessage, h]

/-- Witness for C9: the empty message in chat 0 yields no send. -/
theorem empty_text_no_reply_witness :
    (⟨0, 0, ""⟩ : Message).text = "" ∧
    handleUpdate (fun _ _ => ("", none)) ⟨0, 0, ""⟩ = [] :=
  ⟨rfl, empty_text_no_reply (fun _ _ => ("", none)) ⟨0, 0, ""⟩ rfl⟩

/-- Whenever `checkGrammar` reports an error, its text result is the empty
string (the Go error branch returns `""` with the wrapped error). -/
lemma checkGrammar_err_empty (gen : GenOracle) (t : String) :
    (checkGrammar gen t).1.2 ≠ none → (checkGrammar gen t).1.1 = "" := by
  rcases hg : gen geminiModel (grammarPrompt t) with ⟨r, e⟩
  cases e <;> simp [checkGrammar, generateContent, hg]

/-- C10: `checkGrammar` behaves like an Except-valued function — an error
comes only with the empty text result — and `handleMessage` sends the
labelled result body only on the non-error branch. -/
theorem checkGrammar_except_contract (gen : GenOracle) (t : String)
    (m : Message) (o : Outbound) :
    ((checkGrammar gen t).1.2 ≠ none → (checkGrammar gen t).1.1 = "") ∧
    (o ∈ replies (handleMessage gen m) →
      o.body = grammarLabel ++ (checkGrammar gen m.text).1.1 →
      (checkGrammar gen m.text).1.2 = none) := by
  constructor
  · exact checkGrammar_err_empty gen t
  · intro hmem hbody
    by_contra hne
    have hres : (checkGrammar gen m.text).1.1 = "" :=
      checkGrammar_err_empty gen m.text hne
    rw [hres] at hbody
    unfold handleMessage at hmem
    split at hmem
    · simp [replies] at hmem
    · split at hmem
      · simp [replies, Outbound.isReply] at hmem
        rw [hmem] at hbody
        simp [Outbound.body] at hbody
        exact absurd hbody (by decide)
      · next r heq =>
        exact hne (by simp [heq])

/-- Witness for C10: a failing oracle yields an empty result, and on a
succeeding oracle the labelled body is sent with no error reported. -/
theorem checkGrammar_except_contract_witness :
    ((checkGrammar (fun _ _ => ("x", some "e")) "t").1.2 ≠ none ∧
     (checkGrammar (fun _ _ => ("x", some "e")) "t").1.1 = "") ∧
    (Outbound.message 1 (grammarLabel ++ "ok") (some 2) (some "MarkdownV2") ∈
       replies (handleMessage (fun _ _ => ("ok", none)) ⟨1, 2, "hi"⟩) ∧
     (checkGrammar (fun _ _ => ("ok", none)) "hi").1.2 = none) :=
  ⟨⟨by decide,
    (checkGrammar_except_contract (fun _ _ => ("x", some "e")) "t"
      ⟨1, 2, "hi"⟩ (Outbound.chatAction 0 "")).1 (by decide)⟩,
   ⟨by decide,
    (checkGrammar_except_contract (fun _ _ => ("ok", none)) "t"
      ⟨1, 2, "hi"⟩ (Outbound.message 1 (grammarLabel ++ "ok") (some 2)
        (some "MarkdownV2"))).2 (by decide) (by decide)⟩⟩
